import Mathlib

/-!
Shallow embedding of the four socket programs of the repository
(tcp_server.cpp, tcp_client.cpp, udp_server.cpp, udp_client.cpp).

Each program is modelled as a total function from an environment that
fixes the outcome of every OS call (socket, bind, listen, accept,
inet_pton, connect, recv, recvfrom, send, sendto) to the trace of
observable events the program performs plus its exit outcome.  The
branching structure of each model follows the source line by line.
Machine-level byte contents are abstracted to lengths; the POSIX
contract that a receive returns at most the requested number of bytes
is modelled by taking the minimum of the pending length and the
requested length.
-/

/-- Constant PORT from the sources (8080 in all four programs). -/
def PORT : Nat := 8080

/-- Constant BUFFER_SIZE from the sources (1024 in all four programs). -/
def BUFFER_SIZE : Nat := 1024

/-- Constant MAX_PENDING_CONNECTIONS from tcp_server.cpp (the listen backlog). -/
def MAX_PENDING_CONNECTIONS : Nat := 5

/-- An IP address plus a port number, as filled into a sockaddr_in. -/
structure Endpoint where
  ip : Nat
  port : Nat
deriving DecidableEq, Repr

/-- Observable events of a program run: OS calls with their arguments and
results, writes of the display terminator into the local buffer, and log
lines on stdout / stderr (identified by their fixed prefix text). -/
inductive Event where
  | socketCreated (fd : Option Nat)
  | setsockoptDone (ok : Bool)
  | ptonDone (ok : Bool)
  | bindDone (ok : Bool)
  | listenDone (backlog : Nat) (ok : Bool)
  | connectDone (ok : Bool)
  | acceptDone (fd : Option Nat) (peer : Endpoint)
  | recvDone (fd : Nat) (maxLen : Nat) (res : Int)
  | recvfromDone (fd : Nat) (maxLen : Nat) (res : Int) (sender : Endpoint)
  | sendDone (fd : Nat) (len : Nat) (res : Int)
  | sendtoDone (fd : Nat) (dest : Endpoint) (len : Nat) (res : Int)
  | closeDone (fd : Nat)
  | bufWrite (idx : Nat)
  | logOut (s : String)
  | logErr (s : String)
deriving DecidableEq, Repr

/-- Result of recv/recvfrom when `pending` bytes are available (`none`
models an OS-level failure, result -1): the OS delivers at most the
requested number of bytes. -/
def osRecv (pending : Option Nat) (req : Nat) : Int :=
  match pending with
  | none => -1
  | some n => ((min n req : Nat) : Int)

/-- Result of send/sendto of `len` bytes: the full length on success,
-1 on an OS-level failure. -/
def osSend (ok : Bool) (len : Nat) : Int :=
  if ok then ((len : Nat) : Int) else -1

/-- Fixed reply of the TCP server (response_message in tcp_server.cpp). -/
def tcpServerResponse : String := "Hello from TCP server!"

/-- Fixed request of the TCP client (message in tcp_client.cpp). -/
def tcpClientMessage : String := "Hello from TCP client!"

/-- Fixed reply of the UDP server (response_message in udp_server.cpp). -/
def udpServerResponse : String := "Hello from UDP server!"

/-- Fixed request of the UDP client (message in udp_client.cpp). -/
def udpClientMessage : String := "Hello from UDP client!"

/-- The destination Endpoint of both clients: SERVER_IP 127.0.0.1,
PORT 8080. -/
def clientTarget : Endpoint := { ip := 2130706433, port := PORT }

/-! ### StreamEchoServer (tcp_server.cpp) -/

/-- Environment fixing every OS-call outcome of one run of tcp_server.cpp:
the file descriptor returned by socket (`none` = failure), the setsockopt
outcome, the bind and listen outcomes, the accept result with the peer
address it reports, the number of bytes pending on the accepted
connection (`none` = recv failure), and the send outcome. -/
structure TcpServerEnv where
  socketFd : Option Nat
  setsockoptOk : Bool
  bindOk : Bool
  listenOk : Bool
  acceptFd : Option Nat
  acceptPeer : Endpoint
  pending : Option Nat
  sendOk : Bool

/-- Steps 6 and 7 of tcp_server.cpp (lines 91 to 108): one recv of at most
BUFFER_SIZE - 1 bytes with result `r`; on -1 log an error, on 0 log the
disconnect, otherwise write the terminator at index `r` and send the
fixed reply, logging the send outcome. -/
def tcpServerExchange (cfd : Nat) (r : Int) (sendOk : Bool) : List Event :=
  Event.recvDone cfd (BUFFER_SIZE - 1) r ::
  (if r = -1 then
    [Event.logErr "Error: Receive failed. "]
  else if r = 0 then
    [Event.logOut "Client disconnected."]
  else
    Event.bufWrite r.toNat ::
    Event.logOut "Message received from client" ::
    Event.sendDone cfd tcpServerResponse.length (osSend sendOk tcpServerResponse.length) ::
    (if osSend sendOk tcpServerResponse.length = -1 then
      [Event.logErr "Error: Send failed. "]
    else
      [Event.logOut "Response sent to client"]))

/-- One run of main of tcp_server.cpp: create the socket, set SO_REUSEADDR
(a failure is only a warning), bind, listen with backlog
MAX_PENDING_CONNECTIONS, accept once, do one exchange, then close the
accepted socket and the listening socket; every setup failure closes the
sockets created so far and exits with code 1. -/
def tcpServerRun (env : TcpServerEnv) : List Event × Nat :=
  match env.socketFd with
  | none => ([Event.socketCreated none, Event.logErr "Error: Could not create socket. "], 1)
  | some sfd =>
    let e0 := Event.socketCreated (some sfd) ::
      (if env.setsockoptOk then []
       else [Event.logErr "Warning: setsockopt SO_REUSEADDR failed. "])
    if env.bindOk then
      let e1 := e0 ++ [Event.bindDone true]
      if env.listenOk then
        let e2 := e1 ++ [Event.listenDone MAX_PENDING_CONNECTIONS true]
        match env.acceptFd with
        | none =>
          (e2 ++ [Event.acceptDone none env.acceptPeer,
                  Event.logErr "Error: Accept failed. ",
                  Event.closeDone sfd], 1)
        | some cfd =>
          (e2 ++ [Event.acceptDone (some cfd) env.acceptPeer] ++
             tcpServerExchange cfd (osRecv env.pending (BUFFER_SIZE - 1)) env.sendOk ++
             [Event.closeDone cfd, Event.closeDone sfd], 0)
      else
        (e1 ++ [Event.listenDone MAX_PENDING_CONNECTIONS false,
                Event.logErr "Error: Listen failed. ",
                Event.closeDone sfd], 1)
    else
      (e0 ++ [Event.bindDone false,
              Event.logErr "Error: Bind failed. ",
              Event.closeDone sfd], 1)

/-- A setup failure of tcp_server.cpp: socket creation, bind, listen or
accept failed.  A setsockopt failure is not a setup failure (the source
only logs a warning for it). -/
def tcpServerSetupFailure (env : TcpServerEnv) : Bool :=
  env.socketFd.isNone || !env.bindOk || !env.listenOk || env.acceptFd.isNone

/-! ### StreamEchoClient (tcp_client.cpp) -/

/-- Environment fixing every OS-call outcome of one run of tcp_client.cpp:
the socket file descriptor (`none` = failure), the inet_pton outcome, the
connect outcome, the send outcome, and the number of bytes the server
reply holds (`none` = recv failure). -/
structure TcpClientEnv where
  socketFd : Option Nat
  ptonOk : Bool
  connectOk : Bool
  sendOk : Bool
  pending : Option Nat

/-- One run of main of tcp_client.cpp: create the socket, validate the
address, connect, send the fixed message, receive at most
BUFFER_SIZE - 1 bytes of reply, close.  Every failure after socket
creation closes the socket and exits with code 1; a zero-byte reply is
logged as the server closing and is not fatal. -/
def tcpClientRun (env : TcpClientEnv) : List Event × Nat :=
  match env.socketFd with
  | none => ([Event.socketCreated none, Event.logErr "Error: Could not create socket. "], 1)
  | some fd =>
    let e0 := [Event.socketCreated (some fd)]
    if env.ptonOk then
      let e1 := e0 ++ [Event.ptonDone true]
      if env.connectOk then
        let e2 := e1 ++ [Event.connectDone true]
        let sres := osSend env.sendOk tcpClientMessage.length
        let e3 := e2 ++ [Event.sendDone fd tcpClientMessage.length sres]
        if sres = -1 then
          (e3 ++ [Event.logErr "Error: Send failed. ", Event.closeDone fd], 1)
        else
          let r := osRecv env.pending (BUFFER_SIZE - 1)
          let e4 := e3 ++ [Event.recvDone fd (BUFFER_SIZE - 1) r]
          if r = -1 then
            (e4 ++ [Event.logErr "Error: Receive failed. ", Event.closeDone fd], 1)
          else if r = 0 then
            (e4 ++ [Event.logOut "Server closed the connection.", Event.closeDone fd], 0)
          else
            (e4 ++ [Event.bufWrite r.toNat,
                    Event.logOut "Message received",
                    Event.closeDone fd], 0)
      else
        (e1 ++ [Event.connectDone false,
                Event.logErr "Error: Connection failed. ",
                Event.closeDone fd], 1)
    else
      (e0 ++ [Event.ptonDone false,
              Event.logErr "Error: Invalid address/ Address not supported. ",
              Event.closeDone fd], 1)

/-- A setup failure of tcp_client.cpp: socket creation, address
validation or connect failed. -/
def tcpClientSetupFailure (env : TcpClientEnv) : Bool :=
  env.socketFd.isNone || !env.ptonOk || !env.connectOk

/-! ### DatagramEchoServer (udp_server.cpp) -/

/-- Environment fixing the OS-call outcomes of the setup phase of
udp_server.cpp: the socket file descriptor (`none` = failure), the
setsockopt outcome and the bind outcome. -/
structure UdpServerEnv where
  socketFd : Option Nat
  setsockoptOk : Bool
  bindOk : Bool

/-- The OS-call outcomes of one iteration of the receive loop of
udp_server.cpp: the pending datagram length (`none` = recvfrom failure),
the sender address recvfrom reports, and the sendto outcome. -/
structure UdpIter where
  pending : Option Nat
  sender : Endpoint
  sendOk : Bool

/-- Phase of the UDP server after its setup and any finite number of loop
iterations: still inside the receive loop, or exited with a code. -/
inductive UdpPhase where
  | looping (fd : Nat)
  | exited (code : Nat)
deriving DecidableEq, Repr

/-- Setup phase of main of udp_server.cpp (lines 161 to 187): create the
datagram socket, set SO_REUSEADDR (a failure is only a warning), bind;
socket-creation and bind failures exit with code 1, otherwise the
program enters the receive loop. -/
def udpServerInit (env : UdpServerEnv) : List Event × UdpPhase :=
  match env.socketFd with
  | none =>
    ([Event.socketCreated none, Event.logErr "Error: Could not create socket. "],
     UdpPhase.exited 1)
  | some fd =>
    let e0 := Event.socketCreated (some fd) ::
      (if env.setsockoptOk then []
       else [Event.logErr "Warning: setsockopt SO_REUSEADDR failed. "])
    if env.bindOk then
      (e0 ++ [Event.bindDone true], UdpPhase.looping fd)
    else
      (e0 ++ [Event.bindDone false,
              Event.logErr "Error: Bind failed. ",
              Event.closeDone fd], UdpPhase.exited 1)

/-- One iteration of the receive loop of udp_server.cpp (lines 192 to
219): recvfrom of at most BUFFER_SIZE - 1 bytes capturing the sender; a
-1 result logs an error and continues, a 0 result logs the empty
datagram and continues, a positive result writes the terminator and
sends the fixed reply to the captured sender, logging the outcome. -/
def udpServerIterEvents (fd : Nat) (it : UdpIter) : List Event :=
  let r := osRecv it.pending (BUFFER_SIZE - 1)
  Event.recvfromDone fd (BUFFER_SIZE - 1) r it.sender ::
  (if r = -1 then
    [Event.logErr "Error: Recvfrom failed. "]
  else if r = 0 then
    [Event.logOut "Received empty datagram."]
  else
    Event.bufWrite r.toNat ::
    Event.logOut "Received from sender" ::
    Event.sendtoDone fd it.sender udpServerResponse.length (osSend it.sendOk udpServerResponse.length) ::
    (if osSend it.sendOk udpServerResponse.length = -1 then
      [Event.logErr "Error: Sendto failed. "]
    else
      [Event.logOut "Response sent to sender"]))

/-- Events of the receive loop of udp_server.cpp over a finite prefix of
iterations; the loop itself has no exit, so after any such prefix the
program is still looping. -/
def udpServerLoopEvents (fd : Nat) : List UdpIter → List Event
  | [] => []
  | it :: rest => udpServerIterEvents fd it ++ udpServerLoopEvents fd rest

/-- A run of main of udp_server.cpp observed after the setup phase and a
finite prefix of loop iterations: the trace so far and the phase the
program is in. -/
def udpServerRun (env : UdpServerEnv) (iters : List UdpIter) : List Event × UdpPhase :=
  match (udpServerInit env).2 with
  | UdpPhase.exited c => ((udpServerInit env).1, UdpPhase.exited c)
  | UdpPhase.looping fd => ((udpServerInit env).1 ++ udpServerLoopEvents fd iters, UdpPhase.looping fd)

/-! ### DatagramEchoClient (udp_client.cpp) -/

/-- Environment fixing every OS-call outcome of one run of udp_client.cpp:
the socket file descriptor (`none` = failure), the inet_pton outcome, the
sendto outcome, the pending reply length (`none` = recvfrom failure) and
the Endpoint recvfrom reports as the origin of the reply. -/
structure UdpClientEnv where
  socketFd : Option Nat
  ptonOk : Bool
  sendOk : Bool
  pending : Option Nat
  replySender : Endpoint

/-- One run of main of udp_client.cpp: create the socket, validate the
address, sendto the fixed message to the target, recvfrom at most
BUFFER_SIZE - 1 bytes of reply, close.  Failures after socket creation
close the socket and exit with code 1; a zero-byte reply is logged and
is not fatal. -/
def udpClientRun (env : UdpClientEnv) : List Event × Nat :=
  match env.socketFd with
  | none => ([Event.socketCreated none, Event.logErr "Error: Could not create socket. "], 1)
  | some fd =>
    let e0 := [Event.socketCreated (some fd)]
    if env.ptonOk then
      let e1 := e0 ++ [Event.ptonDone true]
      let sres := osSend env.sendOk udpClientMessage.length
      let e2 := e1 ++ [Event.sendtoDone fd clientTarget udpClientMessage.length sres]
      if sres = -1 then
        (e2 ++ [Event.logErr "Error: Sendto failed. ", Event.closeDone fd], 1)
      else
        let r := osRecv env.pending (BUFFER_SIZE - 1)
        let e3 := e2 ++ [Event.recvfromDone fd (BUFFER_SIZE - 1) r env.replySender]
        if r = -1 then
          (e3 ++ [Event.logErr "Error: Recvfrom failed. ", Event.closeDone fd], 1)
        else if r = 0 then
          (e3 ++ [Event.logOut "Server closed the connection (no data received).",
                  Event.closeDone fd], 0)
        else
          (e3 ++ [Event.bufWrite r.toNat,
                  Event.logOut "Message received",
                  Event.closeDone fd], 0)
    else
      (e0 ++ [Event.ptonDone false,
              Event.logErr "Error: Invalid address/ Address not supported. ",
              Event.closeDone fd], 1)

/-- A setup failure of udp_client.cpp: socket creation or address
validation failed. -/
def udpClientSetupFailure (env : UdpClientEnv) : Bool :=
  env.socketFd.isNone || !env.ptonOk

/-! ### Classifying events -/

/-- Whether an event is a send on a connected stream socket. -/
def isSend : Event → Bool
  | Event.sendDone _ _ _ => true
  | _ => false

/-- Whether an event is a sendto on a datagram socket. -/
def isSendto : Event → Bool
  | Event.sendtoDone _ _ _ _ => true
  | _ => false

/-- Whether an event is an accept call (successful or failed). -/
def isAccept : Event → Bool
  | Event.acceptDone _ _ => true
  | _ => false

/-- The requested maximum length of a receive event, if the event is a
receive. -/
def recvReq : Event → Option Nat
  | Event.recvDone _ m _ => some m
  | Event.recvfromDone _ m _ _ => some m
  | _ => none

/-- The result of a receive event, if the event is a receive. -/
def recvRes : Event → Option Int
  | Event.recvDone _ _ r => some r
  | Event.recvfromDone _ _ r _ => some r
  | _ => none

/-! ### Basic facts about the OS-call models -/

theorem osRecv_none (req : Nat) : osRecv none req = -1 := rfl

theorem osRecv_some (n req : Nat) : osRecv (some n) req = ((min n req : Nat) : Int) := rfl

theorem osRecv_le (pending : Option Nat) (req : Nat) : osRecv pending req ≤ (req : Int) := by
  cases pending with
  | none => simp [osRecv]; omega
  | some n =>
    simp only [osRecv]
    exact_mod_cast Nat.min_le_right n req

theorem osRecv_ge (pending : Option Nat) (req : Nat) : -1 ≤ osRecv pending req := by
  cases pending with
  | none => simp [osRecv]
  | some n => simp only [osRecv]; omega

theorem osRecv_pos_toNat_le (pending : Option Nat) (req : Nat)
    (h : 0 < osRecv pending req) : 0 < (osRecv pending req).toNat ∧ (osRecv pending req).toNat ≤ req := by
  have h1 := osRecv_le pending req
  omega

/-! ### Facts about the exchange step of the stream server -/

theorem tcpServerExchange_no_close (cfd : Nat) (r : Int) (ok : Bool) (fd : Nat) :
    Event.closeDone fd ∉ tcpServerExchange cfd r ok := by
  unfold tcpServerExchange
  by_cases h1 : r = -1 <;> by_cases h2 : r = 0 <;> cases ok <;>
    simp [h1, h2, osSend, tcpServerResponse]

theorem tcpServerExchange_countP_accept (cfd : Nat) (r : Int) (ok : Bool) :
    List.countP isAccept (tcpServerExchange cfd r ok) = 0 := by
  unfold tcpServerExchange
  by_cases h1 : r = -1 <;> by_cases h2 : r = 0 <;> cases ok <;>
    simp [h1, h2, osSend, tcpServerResponse, isAccept]

theorem tcpServerExchange_no_listen (cfd : Nat) (r : Int) (ok : Bool) (b : Nat) (lok : Bool) :
    Event.listenDone b lok ∉ tcpServerExchange cfd r ok := by
  unfold tcpServerExchange
  by_cases h1 : r = -1 <;> by_cases h2 : r = 0 <;> cases ok <;>
    simp [h1, h2, osSend, tcpServerResponse]

theorem count_close_tcpServerExchange (cfd : Nat) (r : Int) (ok : Bool) (fd : Nat) :
    (tcpServerExchange cfd r ok).count (Event.closeDone fd) = 0 :=
  List.count_eq_zero.mpr (tcpServerExchange_no_close cfd r ok fd)

/-- C9: tcp_server.cpp listens with backlog MAX_PENDING_CONNECTIONS = 5,
performs at most one accept call per run (exactly one when setup up to
listen succeeded), and the run terminates with an exit code instead of
looping back to accept a second connection. -/
theorem C9_tcp_server_single_accept (env : TcpServerEnv) :
    MAX_PENDING_CONNECTIONS = 5
    ∧ (∀ b ok, Event.listenDone b ok ∈ (tcpServerRun env).1 → b = MAX_PENDING_CONNECTIONS)
    ∧ List.countP isAccept (tcpServerRun env).1 ≤ 1
    ∧ (env.socketFd.isSome = true → env.bindOk = true → env.listenOk = true →
        List.countP isAccept (tcpServerRun env).1 = 1) := by
  obtain ⟨sf, so, b, l, af, peer, p, sok⟩ := env
  refine ⟨rfl, ?_, ?_, ?_⟩ <;>
    cases sf <;> cases so <;> cases b <;> cases l <;> cases af <;>
      simp [tcpServerRun, isAccept, tcpServerExchange_no_listen,
        tcpServerExchange_countP_accept, List.countP_append, List.countP_cons]

/-- Witness for C9 at a concrete environment. -/
theorem C9_tcp_server_single_accept_witness :
    List.countP isAccept
      (tcpServerRun ⟨some 3, true, true, true, some 4, ⟨1, 2⟩, some 5, true⟩).1 = 1 :=
  (C9_tcp_server_single_accept ⟨some 3, true, true, true, some 4, ⟨1, 2⟩, some 5, true⟩).2.2.2
    rfl rfl rfl

/-- C5: on every exit path of tcp_server.cpp every socket created by that
point is closed before termination, and when both the accepted socket
and the listening socket exist the accepted one is closed first and the
listening one second, each exactly once when the two descriptors
differ. -/
theorem C5_tcp_server_release (env : TcpServerEnv) :
    (∀ sfd, env.socketFd = some sfd → Event.closeDone sfd ∈ (tcpServerRun env).1)
    ∧ (∀ sfd cfd, env.socketFd = some sfd → env.bindOk = true → env.listenOk = true →
        env.acceptFd = some cfd →
        (∃ pre, (tcpServerRun env).1 = pre ++ [Event.closeDone cfd, Event.closeDone sfd])
        ∧ (cfd ≠ sfd →
            (tcpServerRun env).1.count (Event.closeDone cfd) = 1
            ∧ (tcpServerRun env).1.count (Event.closeDone sfd) = 1)) := by
  obtain ⟨sf, so, b, l, af, peer, p, sok⟩ := env
  constructor
  · intro sfd h
    cases sf <;> cases h <;> cases so <;> cases b <;> cases l <;> cases af <;>
      simp [tcpServerRun]
  · intro sfd cfd h1 h2 h3 h4
    simp only at h1 h2 h3 h4
    subst h2; subst h3
    cases sf <;> cases h1 <;> cases af <;> cases h4
    constructor
    · refine ⟨Event.socketCreated (some sfd) ::
        ((if so = true then [] else [Event.logErr "Warning: setsockopt SO_REUSEADDR failed. "]) ++
          Event.bindDone true ::
            Event.listenDone MAX_PENDING_CONNECTIONS true ::
              Event.acceptDone (some cfd) peer ::
                tcpServerExchange cfd (osRecv p (BUFFER_SIZE - 1)) sok), ?_⟩
      simp [tcpServerRun]
    · intro hne
      cases so <;>
        simp [tcpServerRun, List.count_append, List.count_cons,
          count_close_tcpServerExchange, hne, Ne.symm hne]

/-- Witness for C5 at a concrete environment. -/
theorem C5_tcp_server_release_witness :
    Event.closeDone 3 ∈
      (tcpServerRun ⟨some 3, true, true, true, some 4, ⟨1, 2⟩, some 5, true⟩).1 ∧
    (tcpServerRun ⟨some 3, true, true, true, some 4, ⟨1, 2⟩, some 5, true⟩).1.count
      (Event.closeDone 4) = 1 :=
  ⟨(C5_tcp_server_release ⟨some 3, true, true, true, some 4, ⟨1, 2⟩, some 5, true⟩).1 3 rfl,
   (((C5_tcp_server_release ⟨some 3, true, true, true, some 4, ⟨1, 2⟩, some 5, true⟩).2 3 4
      rfl rfl rfl rfl).2 (by decide)).1⟩

theorem osSend_false (len : Nat) : osSend false len = -1 := rfl

theorem osSend_true_ne_neg_one (len : Nat) : osSend true len ≠ -1 := by
  simp [osSend]

theorem tcpServerExchange_eq_of_neg (cfd : Nat) (ok : Bool) :
    tcpServerExchange cfd (-1) ok =
      [Event.recvDone cfd (BUFFER_SIZE - 1) (-1), Event.logErr "Error: Receive failed. "] := by
  simp [tcpServerExchange]

theorem tcpServerExchange_eq_of_zero (cfd : Nat) (ok : Bool) :
    tcpServerExchange cfd 0 ok =
      [Event.recvDone cfd (BUFFER_SIZE - 1) 0, Event.logOut "Client disconnected."] := by
  simp [tcpServerExchange]

theorem tcpServerExchange_eq_of_pos (cfd : Nat) (r : Int) (ok : Bool) (h : 0 < r) :
    tcpServerExchange cfd r ok =
      Event.recvDone cfd (BUFFER_SIZE - 1) r ::
      Event.bufWrite r.toNat ::
      Event.logOut "Message received from client" ::
      Event.sendDone cfd tcpServerResponse.length (osSend ok tcpServerResponse.length) ::
      (if ok then [Event.logOut "Response sent to client"]
       else [Event.logErr "Error: Send failed. "]) := by
  have h1 : ¬r = -1 := by omega
  have h2 : ¬r = 0 := by omega
  cases ok with
  | false => simp [tcpServerExchange, h1, h2, osSend_false]
  | true => simp [tcpServerExchange, h1, h2, osSend_true_ne_neg_one]

/-- C2: in tcp_server.cpp, after a connection is accepted: a zero-byte
receive is logged as the client disconnecting, no transfer error is
logged for it, and no reply is sent; a positive-length receive sends
exactly one reply of the fixed response length; a negative receive
result is logged as a receive error with no reply sent; a negative send
result after a positive receive is logged as a send error. -/
theorem C2_tcp_server_exchange (env : TcpServerEnv) (cfd : Nat)
    (hs : env.socketFd.isSome = true) (hb : env.bindOk = true) (hl : env.listenOk = true)
    (ha : env.acceptFd = some cfd) :
    (env.pending = some 0 →
      Event.logOut "Client disconnected." ∈ (tcpServerRun env).1
      ∧ List.countP isSend (tcpServerRun env).1 = 0
      ∧ Event.logErr "Error: Receive failed. " ∉ (tcpServerRun env).1)
    ∧ (∀ n, env.pending = some n → 0 < n →
        List.countP isSend (tcpServerRun env).1 = 1
        ∧ Event.sendDone cfd tcpServerResponse.length
            (osSend env.sendOk tcpServerResponse.length) ∈ (tcpServerRun env).1)
    ∧ (env.pending = none →
        Event.logErr "Error: Receive failed. " ∈ (tcpServerRun env).1
        ∧ List.countP isSend (tcpServerRun env).1 = 0)
    ∧ (∀ n, env.pending = some n → 0 < n → env.sendOk = false →
        Event.logErr "Error: Send failed. " ∈ (tcpServerRun env).1) := by
  obtain ⟨sf, so, b, l, af, peer, p, sok⟩ := env
  simp only at hs hb hl ha
  subst hb; subst hl; subst ha
  cases sf with
  | none => simp at hs
  | some sfd =>
    refine ⟨?_, ?_, ?_, ?_⟩
    · rintro rfl
      have hr : osRecv (some 0) (BUFFER_SIZE - 1) = 0 := by
        simp [osRecv]
      cases so <;>
        simp [tcpServerRun, hr, tcpServerExchange_eq_of_zero,
          List.countP_append, List.countP_cons, isSend]
    · rintro n rfl hn
      have hr : 0 < osRecv (some n) (BUFFER_SIZE - 1) := by
        simp only [osRecv]
        have : 0 < min n (BUFFER_SIZE - 1) := by
          simp [BUFFER_SIZE]; omega
        exact_mod_cast this
      cases so <;> cases sok <;>
        simp [tcpServerRun, tcpServerExchange_eq_of_pos _ _ _ hr,
          List.countP_append, List.countP_cons, isSend]
    · rintro rfl
      cases so <;>
        simp [tcpServerRun, osRecv_none, tcpServerExchange_eq_of_neg,
          List.countP_append, List.countP_cons, isSend]
    · rintro n rfl hn hsok
      subst hsok
      have hr : 0 < osRecv (some n) (BUFFER_SIZE - 1) := by
        simp only [osRecv]
        have : 0 < min n (BUFFER_SIZE - 1) := by
          simp [BUFFER_SIZE]; omega
        exact_mod_cast this
      cases so <;>
        simp [tcpServerRun, tcpServerExchange_eq_of_pos _ _ _ hr]

/-- Witness for C2 at a concrete environment. -/
theorem C2_tcp_server_exchange_witness :
    List.countP isSend
      (tcpServerRun ⟨some 3, true, true, true, some 4, ⟨1, 2⟩, some 7, true⟩).1 = 1 :=
  ((C2_tcp_server_exchange ⟨some 3, true, true, true, some 4, ⟨1, 2⟩, some 7, true⟩ 4
      rfl rfl rfl rfl).2.1 7 rfl (by decide)).1

theorem osRecv_zero (req : Nat) : osRecv (some 0) req = 0 := by
  simp [osRecv]

theorem osRecv_pos_of_pos (n req : Nat) (hn : 0 < n) (hreq : 0 < req) :
    0 < osRecv (some n) req := by
  simp only [osRecv]
  exact_mod_cast Nat.lt_min.mpr ⟨hn, hreq⟩

theorem udpServerIterEvents_eq_of_neg (fd : Nat) (it : UdpIter) (h : it.pending = none) :
    udpServerIterEvents fd it =
      [Event.recvfromDone fd (BUFFER_SIZE - 1) (-1) it.sender,
       Event.logErr "Error: Recvfrom failed. "] := by
  simp [udpServerIterEvents, h, osRecv_none]

theorem udpServerIterEvents_eq_of_zero (fd : Nat) (it : UdpIter) (h : it.pending = some 0) :
    udpServerIterEvents fd it =
      [Event.recvfromDone fd (BUFFER_SIZE - 1) 0 it.sender,
       Event.logOut "Received empty datagram."] := by
  simp [udpServerIterEvents, h, osRecv]

theorem udpServerIterEvents_eq_of_pos (fd : Nat) (it : UdpIter) (n : Nat)
    (h : it.pending = some n) (hn : 0 < n) :
    udpServerIterEvents fd it =
      Event.recvfromDone fd (BUFFER_SIZE - 1) (osRecv (some n) (BUFFER_SIZE - 1)) it.sender ::
      Event.bufWrite (osRecv (some n) (BUFFER_SIZE - 1)).toNat ::
      Event.logOut "Received from sender" ::
      Event.sendtoDone fd it.sender udpServerResponse.length
        (osSend it.sendOk udpServerResponse.length) ::
      (if it.sendOk = true then [Event.logOut "Response sent to sender"]
       else [Event.logErr "Error: Sendto failed. "]) := by
  have hr : 0 < osRecv (some n) (BUFFER_SIZE - 1) :=
    osRecv_pos_of_pos n _ hn (by simp [BUFFER_SIZE])
  have h1 : ¬osRecv (some n) (BUFFER_SIZE - 1) = -1 := by omega
  have h2 : ¬osRecv (some n) (BUFFER_SIZE - 1) = 0 := by omega
  cases hok : it.sendOk with
  | false => simp [udpServerIterEvents, h, h1, h2, hok, osSend_false]
  | true => simp [udpServerIterEvents, h, h1, h2, hok, osSend_true_ne_neg_one]

theorem osRecv_some_toNat (n req : Nat) : (osRecv (some n) req).toNat = min n req := rfl

theorem tcpServerExchange_bufWrite_bound (cfd : Nat) (p : Option Nat) (ok : Bool) (idx : Nat)
    (h : Event.bufWrite idx ∈ tcpServerExchange cfd (osRecv p (BUFFER_SIZE - 1)) ok) :
    0 < idx ∧ idx < BUFFER_SIZE := by
  cases p with
  | none =>
    rw [osRecv_none, tcpServerExchange_eq_of_neg] at h
    simp at h
  | some n =>
    by_cases hn : n = 0
    · subst hn
      rw [osRecv_zero, tcpServerExchange_eq_of_zero] at h
      simp at h
    · have hr : 0 < osRecv (some n) (BUFFER_SIZE - 1) :=
        osRecv_pos_of_pos n _ (by omega) (by simp [BUFFER_SIZE])
      rw [tcpServerExchange_eq_of_pos _ _ _ hr] at h
      cases ok <;> simp [osRecv_some_toNat] at h <;> subst h <;>
        (simp only [BUFFER_SIZE]; omega)

theorem udpServerIterEvents_bufWrite_bound (fd : Nat) (it : UdpIter) (idx : Nat)
    (h : Event.bufWrite idx ∈ udpServerIterEvents fd it) :
    0 < idx ∧ idx < BUFFER_SIZE := by
  cases hp : it.pending with
  | none =>
    rw [udpServerIterEvents_eq_of_neg fd it hp] at h
    simp at h
  | some n =>
    by_cases hn : n = 0
    · subst hn
      rw [udpServerIterEvents_eq_of_zero fd it hp] at h
      simp at h
    · rw [udpServerIterEvents_eq_of_pos fd it n hp (by omega)] at h
      cases hok : it.sendOk <;> simp [hok, osRecv_some_toNat] at h <;> subst h <;>
        (simp only [BUFFER_SIZE]; omega)

theorem udpServerLoopEvents_bufWrite_bound (fd : Nat) (iters : List UdpIter) (idx : Nat)
    (h : Event.bufWrite idx ∈ udpServerLoopEvents fd iters) :
    0 < idx ∧ idx < BUFFER_SIZE := by
  induction iters with
  | nil => simp [udpServerLoopEvents] at h
  | cons it rest ih =>
    rw [udpServerLoopEvents, List.mem_append] at h
    cases h with
    | inl h => exact udpServerIterEvents_bufWrite_bound fd it idx h
    | inr h => exact ih h

theorem tcpClientRun_bufWrite_bound (env : TcpClientEnv) (idx : Nat)
    (h : Event.bufWrite idx ∈ (tcpClientRun env).1) :
    0 < idx ∧ idx < BUFFER_SIZE := by
  obtain ⟨sf, po, co, sok, p⟩ := env
  cases sf with
  | none => simp [tcpClientRun] at h
  | some fd =>
    cases po with
    | false => simp [tcpClientRun] at h
    | true =>
      cases co with
      | false => simp [tcpClientRun] at h
      | true =>
        cases sok with
        | false => simp [tcpClientRun, osSend_false] at h
        | true =>
          cases p with
          | none => simp [tcpClientRun, osSend_true_ne_neg_one, osRecv_none] at h
          | some n =>
            by_cases hn : n = 0
            · subst hn
              simp [tcpClientRun, osSend_true_ne_neg_one, osRecv_zero] at h
            · have hr : 0 < osRecv (some n) (BUFFER_SIZE - 1) :=
                osRecv_pos_of_pos n _ (by omega) (by simp [BUFFER_SIZE])
              have h1 : ¬osRecv (some n) (BUFFER_SIZE - 1) = -1 := by omega
              have h2 : ¬osRecv (some n) (BUFFER_SIZE - 1) = 0 := by omega
              simp [tcpClientRun, osSend_true_ne_neg_one, h1, h2, osRecv_some_toNat] at h
              subst h
              simp only [BUFFER_SIZE]
              omega

theorem udpClientRun_bufWrite_bound (env : UdpClientEnv) (idx : Nat)
    (h : Event.bufWrite idx ∈ (udpClientRun env).1) :
    0 < idx ∧ idx < BUFFER_SIZE := by
  obtain ⟨sf, po, sok, p, rs⟩ := env
  cases sf with
  | none => simp [udpClientRun] at h
  | some fd =>
    cases po with
    | false => simp [udpClientRun] at h
    | true =>
      cases sok with
      | false => simp [udpClientRun, osSend_false] at h
      | true =>
        cases p with
        | none => simp [udpClientRun, osSend_true_ne_neg_one, osRecv_none] at h
        | some n =>
          by_cases hn : n = 0
          · subst hn
            simp [udpClientRun, osSend_true_ne_neg_one, osRecv_zero] at h
          · have hr : 0 < osRecv (some n) (BUFFER_SIZE - 1) :=
              osRecv_pos_of_pos n _ (by omega) (by simp [BUFFER_SIZE])
            have h1 : ¬osRecv (some n) (BUFFER_SIZE - 1) = -1 := by omega
            have h2 : ¬osRecv (some n) (BUFFER_SIZE - 1) = 0 := by omega
            simp [udpClientRun, osSend_true_ne_neg_one, h1, h2, osRecv_some_toNat] at h
            subst h
            simp only [BUFFER_SIZE]
            omega

theorem tcpServerRun_bufWrite_bound (env : TcpServerEnv) (idx : Nat)
    (h : Event.bufWrite idx ∈ (tcpServerRun env).1) :
    0 < idx ∧ idx < BUFFER_SIZE := by
  obtain ⟨sf, so, b, l, af, peer, p, sok⟩ := env
  cases sf with
  | none => simp [tcpServerRun] at h
  | some sfd =>
    cases so <;> cases b <;> cases l <;> cases af <;>
      simp [tcpServerRun] at h <;>
      exact tcpServerExchange_bufWrite_bound _ p sok idx h

theorem udpServerRun_bufWrite_bound (env : UdpServerEnv) (iters : List UdpIter) (idx : Nat)
    (h : Event.bufWrite idx ∈ (udpServerRun env iters).1) :
    0 < idx ∧ idx < BUFFER_SIZE := by
  obtain ⟨sf, so, b⟩ := env
  cases sf with
  | none => simp [udpServerRun, udpServerInit] at h
  | some fd =>
    cases so <;> cases b <;>
      simp [udpServerRun, udpServerInit] at h <;>
      exact udpServerLoopEvents_bufWrite_bound fd iters idx h

/-- C10: in every receiver, whenever the receive result is positive, the
display-terminator write lands at a buffer index that is strictly
positive and strictly below BUFFER_SIZE, because every receive requests
at most BUFFER_SIZE - 1 bytes. -/
theorem C10_terminator_write_in_bounds (envTS : TcpServerEnv) (envTC : TcpClientEnv)
    (envUS : UdpServerEnv) (iters : List UdpIter) (envUC : UdpClientEnv) :
    (∀ idx, Event.bufWrite idx ∈ (tcpServerRun envTS).1 → 0 < idx ∧ idx < BUFFER_SIZE)
    ∧ (∀ idx, Event.bufWrite idx ∈ (tcpClientRun envTC).1 → 0 < idx ∧ idx < BUFFER_SIZE)
    ∧ (∀ idx, Event.bufWrite idx ∈ (udpServerRun envUS iters).1 → 0 < idx ∧ idx < BUFFER_SIZE)
    ∧ (∀ idx, Event.bufWrite idx ∈ (udpClientRun envUC).1 → 0 < idx ∧ idx < BUFFER_SIZE) :=
  ⟨fun idx h => tcpServerRun_bufWrite_bound envTS idx h,
   fun idx h => tcpClientRun_bufWrite_bound envTC idx h,
   fun idx h => udpServerRun_bufWrite_bound envUS iters idx h,
   fun idx h => udpClientRun_bufWrite_bound envUC idx h⟩

/-- Witness for C10 at concrete environments. -/
theorem C10_terminator_write_in_bounds_witness :
    Event.bufWrite 7 ∈
      (udpClientRun ⟨some 3, true, true, some 7, ⟨1, 2⟩⟩).1 ∧ (0 < 7 ∧ 7 < BUFFER_SIZE) :=
  ⟨by simp [udpClientRun, osSend, osRecv, BUFFER_SIZE],
   (C10_terminator_write_in_bounds ⟨some 3, true, true, true, some 4, ⟨1, 2⟩, some 7, true⟩
      ⟨some 3, true, true, true, some 7⟩ ⟨some 3, true, true⟩ [] ⟨some 3, true, true, some 7, ⟨1, 2⟩⟩).2.2.2 7
      (by simp [udpClientRun, osSend, osRecv, BUFFER_SIZE])⟩

theorem tcpClientRun_close_once (env : TcpClientEnv) (fd : Nat)
    (h : env.socketFd = some fd) :
    ((tcpClientRun env).1).count (Event.closeDone fd) = 1 := by
  obtain ⟨sf, po, co, sok, p⟩ := env
  simp only at h
  subst h
  cases po with
  | false => simp [tcpClientRun, List.count_cons, beq_iff_eq]
  | true =>
    cases co with
    | false => simp [tcpClientRun, List.count_cons, beq_iff_eq]
    | true =>
      cases sok with
      | false => simp [tcpClientRun, osSend_false, List.count_cons, beq_iff_eq]
      | true =>
        cases p with
        | none =>
          simp [tcpClientRun, osSend_true_ne_neg_one, osRecv_none,
            List.count_cons, beq_iff_eq]
        | some n =>
          by_cases hn : n = 0
          · subst hn
            simp [tcpClientRun, osSend_true_ne_neg_one, osRecv_zero,
              List.count_cons, beq_iff_eq]
          · have hr : 0 < osRecv (some n) (BUFFER_SIZE - 1) :=
              osRecv_pos_of_pos n _ (by omega) (by simp [BUFFER_SIZE])
            have h1 : ¬osRecv (some n) (BUFFER_SIZE - 1) = -1 := by omega
            have h2 : ¬osRecv (some n) (BUFFER_SIZE - 1) = 0 := by omega
            simp [tcpClientRun, osSend_true_ne_neg_one, h1, h2,
              List.count_cons, beq_iff_eq]

theorem udpClientRun_close_once (env : UdpClientEnv) (fd : Nat)
    (h : env.socketFd = some fd) :
    ((udpClientRun env).1).count (Event.closeDone fd) = 1 := by
  obtain ⟨sf, po, sok, p, rs⟩ := env
  simp only at h
  subst h
  cases po with
  | false => simp [udpClientRun, List.count_cons, beq_iff_eq]
  | true =>
    cases sok with
    | false => simp [udpClientRun, osSend_false, List.count_cons, beq_iff_eq]
    | true =>
      cases p with
      | none =>
        simp [udpClientRun, osSend_true_ne_neg_one, osRecv_none,
          List.count_cons, beq_iff_eq]
      | some n =>
        by_cases hn : n = 0
        · subst hn
          simp [udpClientRun, osSend_true_ne_neg_one, osRecv_zero,
            List.count_cons, beq_iff_eq]
        · have hr : 0 < osRecv (some n) (BUFFER_SIZE - 1) :=
            osRecv_pos_of_pos n _ (by omega) (by simp [BUFFER_SIZE])
          have h1 : ¬osRecv (some n) (BUFFER_SIZE - 1) = -1 := by omega
          have h2 : ¬osRecv (some n) (BUFFER_SIZE - 1) = 0 := by omega
          simp [udpClientRun, osSend_true_ne_neg_one, h1, h2,
            List.count_cons, beq_iff_eq]

/-- C8: on every exit path of tcp_client.cpp and of udp_client.cpp that
is reached after socket creation succeeds, the client closes its socket
exactly once before terminating. -/
theorem C8_clients_close_once (envT : TcpClientEnv) (envU : UdpClientEnv) :
    (∀ fd, envT.socketFd = some fd →
      ((tcpClientRun envT).1).count (Event.closeDone fd) = 1)
    ∧ (∀ fd, envU.socketFd = some fd →
      ((udpClientRun envU).1).count (Event.closeDone fd) = 1) :=
  ⟨fun fd h => tcpClientRun_close_once envT fd h,
   fun fd h => udpClientRun_close_once envU fd h⟩

/-- Witness for C8 at concrete environments. -/
theorem C8_clients_close_once_witness :
    ((tcpClientRun ⟨some 3, true, false, true, some 7⟩).1).count (Event.closeDone 3) = 1
    ∧ ((udpClientRun ⟨some 6, true, true, none, ⟨1, 2⟩⟩).1).count (Event.closeDone 6) = 1 :=
  ⟨(C8_clients_close_once ⟨some 3, true, false, true, some 7⟩
      ⟨some 6, true, true, none, ⟨1, 2⟩⟩).1 3 rfl,
   (C8_clients_close_once ⟨some 3, true, false, true, some 7⟩
      ⟨some 6, true, true, none, ⟨1, 2⟩⟩).2 6 rfl⟩

/-- A transfer failure of tcp_client.cpp: the send or the receive
returned -1.  The source exits with code 1 in these cases too. -/
def tcpClientTransferFailure (env : TcpClientEnv) : Bool :=
  !env.sendOk || env.pending.isNone

/-- A transfer failure of udp_client.cpp: the sendto or the recvfrom
returned -1.  The source exits with code 1 in these cases too. -/
def udpClientTransferFailure (env : UdpClientEnv) : Bool :=
  !env.sendOk || env.pending.isNone

theorem tcpServerRun_code (env : TcpServerEnv) :
    (tcpServerRun env).2 = (if tcpServerSetupFailure env then 1 else 0) := by
  obtain ⟨sf, so, b, l, af, peer, p, sok⟩ := env
  cases sf <;> cases so <;> cases b <;> cases l <;> cases af <;>
    simp [tcpServerRun, tcpServerSetupFailure]

theorem tcpClientRun_code (env : TcpClientEnv) :
    (tcpClientRun env).2 =
      (if tcpClientSetupFailure env || tcpClientTransferFailure env then 1 else 0) := by
  obtain ⟨sf, po, co, sok, p⟩ := env
  cases sf with
  | none => simp [tcpClientRun, tcpClientSetupFailure]
  | some fd =>
    cases po with
    | false => simp [tcpClientRun, tcpClientSetupFailure]
    | true =>
      cases co with
      | false => simp [tcpClientRun, tcpClientSetupFailure]
      | true =>
        cases sok with
        | false =>
          simp [tcpClientRun, tcpClientSetupFailure, tcpClientTransferFailure, osSend_false]
        | true =>
          cases p with
          | none =>
            simp [tcpClientRun, tcpClientSetupFailure, tcpClientTransferFailure,
              osSend_true_ne_neg_one, osRecv_none]
          | some n =>
            by_cases hn : n = 0
            · subst hn
              simp [tcpClientRun, tcpClientSetupFailure, tcpClientTransferFailure,
                osSend_true_ne_neg_one, osRecv_zero]
            · have hr : 0 < osRecv (some n) (BUFFER_SIZE - 1) :=
                osRecv_pos_of_pos n _ (by omega) (by simp [BUFFER_SIZE])
              have h1 : ¬osRecv (some n) (BUFFER_SIZE - 1) = -1 := by omega
              have h2 : ¬osRecv (some n) (BUFFER_SIZE - 1) = 0 := by omega
              simp [tcpClientRun, tcpClientSetupFailure, tcpClientTransferFailure,
                osSend_true_ne_neg_one, h1, h2]

theorem udpClientRun_code (env : UdpClientEnv) :
    (udpClientRun env).2 =
      (if udpClientSetupFailure env || udpClientTransferFailure env then 1 else 0) := by
  obtain ⟨sf, po, sok, p, rs⟩ := env
  cases sf with
  | none => simp [udpClientRun, udpClientSetupFailure]
  | some fd =>
    cases po with
    | false => simp [udpClientRun, udpClientSetupFailure]
    | true =>
      cases sok with
      | false =>
        simp [udpClientRun, udpClientSetupFailure, udpClientTransferFailure, osSend_false]
      | true =>
        cases p with
        | none =>
          simp [udpClientRun, udpClientSetupFailure, udpClientTransferFailure,
            osSend_true_ne_neg_one, osRecv_none]
        | some n =>
          by_cases hn : n = 0
          · subst hn
            simp [udpClientRun, udpClientSetupFailure, udpClientTransferFailure,
              osSend_true_ne_neg_one, osRecv_zero]
          · have hr : 0 < osRecv (some n) (BUFFER_SIZE - 1) :=
              osRecv_pos_of_pos n _ (by omega) (by simp [BUFFER_SIZE])
            have h1 : ¬osRecv (some n) (BUFFER_SIZE - 1) = -1 := by omega
            have h2 : ¬osRecv (some n) (BUFFER_SIZE - 1) = 0 := by omega
            simp [udpClientRun, udpClientSetupFailure, udpClientTransferFailure,
              osSend_true_ne_neg_one, h1, h2]

/-- Counterexample to C3 as stated: the TCP client exits with code 1 when
its send fails, although no fatal setup failure (socket creation, bind,
listen, connect, accept, address validation) occurred. -/
theorem C3_exit_codes_counterexample :
    (tcpClientRun ⟨some 3, true, true, false, some 5⟩).2 = 1
    ∧ tcpClientSetupFailure ⟨some 3, true, true, false, some 5⟩ = false :=
  ⟨rfl, rfl⟩

/-- C3 amended: the stream server exits 1 exactly on a fatal setup
failure and 0 otherwise; each client exits 1 exactly when a setup
failure or a transfer failure (a failed send or receive) occurs, and 0
otherwise. -/
theorem C3_exit_codes_amended (envS : TcpServerEnv) (envC : TcpClientEnv)
    (envU : UdpClientEnv) :
    ((tcpServerRun envS).2 = 1 ↔ tcpServerSetupFailure envS = true)
    ∧ ((tcpServerRun envS).2 = 0 ↔ tcpServerSetupFailure envS = false)
    ∧ ((tcpClientRun envC).2 = 1 ↔
        (tcpClientSetupFailure envC || tcpClientTransferFailure envC) = true)
    ∧ ((tcpClientRun envC).2 = 0 ↔
        (tcpClientSetupFailure envC || tcpClientTransferFailure envC) = false)
    ∧ ((udpClientRun envU).2 = 1 ↔
        (udpClientSetupFailure envU || udpClientTransferFailure envU) = true)
    ∧ ((udpClientRun envU).2 = 0 ↔
        (udpClientSetupFailure envU || udpClientTransferFailure envU) = false) := by
  rw [tcpServerRun_code, tcpClientRun_code, udpClientRun_code]
  cases tcpServerSetupFailure envS <;>
    cases tcpClientSetupFailure envC || tcpClientTransferFailure envC <;>
    cases udpClientSetupFailure envU || udpClientTransferFailure envU <;>
    simp

/-- Counterexample to C7 as stated: when setting address-reuse fails but
socket creation and bind succeed, udp_server.cpp does not exit — it
proceeds into the receive loop. -/
theorem C7_fatal_setup_counterexample :
    (udpServerInit ⟨some 3, false, true⟩).2 = UdpPhase.looping 3
    ∧ (⟨some 3, false, true⟩ : UdpServerEnv).setsockoptOk = false
    ∧ (udpServerRun ⟨some 3, false, true⟩ []).2 ≠ UdpPhase.exited 1 :=
  ⟨rfl, rfl, by simp [udpServerRun, udpServerInit]⟩

/-- C7 amended: in udp_server.cpp a socket-creation failure or a bind
failure is fatal (exit code 1, the receive loop is never entered);
a failure to set address-reuse is only logged as a warning and the
program continues into the loop. -/
theorem C7_fatal_setup_amended (env : UdpServerEnv) :
    (env.socketFd = none → (udpServerInit env).2 = UdpPhase.exited 1)
    ∧ (env.bindOk = false → (udpServerInit env).2 = UdpPhase.exited 1)
    ∧ (∀ fd, (udpServerInit env).2 = UdpPhase.looping fd →
        env.socketFd = some fd ∧ env.bindOk = true)
    ∧ (∀ fd, env.socketFd = some fd → env.setsockoptOk = false →
        Event.logErr "Warning: setsockopt SO_REUSEADDR failed. " ∈ (udpServerInit env).1) := by
  obtain ⟨sf, so, b⟩ := env
  cases sf <;> cases so <;> cases b <;> simp [udpServerInit]

/-- Witness for the amended C7 at a concrete environment. -/
theorem C7_fatal_setup_amended_witness :
    (udpServerInit ⟨some 3, true, false⟩).2 = UdpPhase.exited 1 :=
  (C7_fatal_setup_amended ⟨some 3, true, false⟩).2.1 rfl

theorem udpServerRun_of_looping (env : UdpServerEnv) (iters : List UdpIter) (fd : Nat)
    (h : (udpServerInit env).2 = UdpPhase.looping fd) :
    udpServerRun env iters =
      ((udpServerInit env).1 ++ udpServerLoopEvents fd iters, UdpPhase.looping fd) := by
  simp [udpServerRun, h]

theorem udpServerIterEvents_countP_sendto_none (fd : Nat) (it : UdpIter)
    (hp : it.pending = none) :
    List.countP isSendto (udpServerIterEvents fd it) = 0 := by
  rw [udpServerIterEvents_eq_of_neg fd it hp]
  simp [isSendto]

theorem udpServerIterEvents_countP_sendto_zero (fd : Nat) (it : UdpIter)
    (hp : it.pending = some 0) :
    List.countP isSendto (udpServerIterEvents fd it) = 0 := by
  rw [udpServerIterEvents_eq_of_zero fd it hp]
  simp [isSendto]

theorem udpServerIterEvents_countP_sendto_pos (fd : Nat) (it : UdpIter) (n : Nat)
    (hp : it.pending = some n) (hn : 0 < n) :
    List.countP isSendto (udpServerIterEvents fd it) = 1 := by
  rw [udpServerIterEvents_eq_of_pos fd it n hp hn]
  cases hok : it.sendOk <;> simp [hok, isSendto, List.countP_cons]

theorem udpServerIterEvents_sendto_mem (fd : Nat) (it : UdpIter) (f : Nat) (ep : Endpoint)
    (len : Nat) (res : Int)
    (h : Event.sendtoDone f ep len res ∈ udpServerIterEvents fd it) :
    f = fd ∧ ep = it.sender ∧ len = udpServerResponse.length := by
  cases hp : it.pending with
  | none =>
    rw [udpServerIterEvents_eq_of_neg fd it hp] at h
    simp at h
  | some n =>
    by_cases hn : n = 0
    · subst hn
      rw [udpServerIterEvents_eq_of_zero fd it hp] at h
      simp at h
    · rw [udpServerIterEvents_eq_of_pos fd it n hp (by omega)] at h
      cases hok : it.sendOk <;> simp [hok] at h <;> tauto

theorem udpServerLoopEvents_decompose (fd : Nat) (iters : List UdpIter) (i : Nat)
    (h : i < iters.length) :
    ∃ pre post, udpServerLoopEvents fd iters =
      pre ++ udpServerIterEvents fd (iters.get ⟨i, h⟩) ++ post := by
  induction iters generalizing i with
  | nil => simp at h
  | cons it rest ih =>
    cases i with
    | zero =>
      exact ⟨[], udpServerLoopEvents fd rest, by simp [udpServerLoopEvents]⟩
    | succ j =>
      obtain ⟨pre, post, heq⟩ := ih j (by simpa using h)
      refine ⟨udpServerIterEvents fd it ++ pre, post, ?_⟩
      simp [udpServerLoopEvents, heq]

/-- C4: the receive loop of udp_server.cpp never exits: the run phase is
never a normal exit, once looping it stays looping whatever the
iterations bring, appending further iterations never changes the phase,
a failed receive is logged and sends nothing, an empty datagram is
logged and sends nothing, and a failed send after a positive receive is
logged — none of these failures terminates the process. -/
theorem C4_udp_loop_never_terminates (env : UdpServerEnv) (iters : List UdpIter) (fd : Nat) :
    (udpServerRun env iters).2 ≠ UdpPhase.exited 0
    ∧ ((udpServerInit env).2 = UdpPhase.looping fd →
        (udpServerRun env iters).2 = UdpPhase.looping fd)
    ∧ (∀ more, (udpServerRun env (iters ++ more)).2 = (udpServerRun env iters).2)
    ∧ (∀ it, it.pending = none →
        Event.logErr "Error: Recvfrom failed. " ∈ udpServerIterEvents fd it
        ∧ List.countP isSendto (udpServerIterEvents fd it) = 0)
    ∧ (∀ it, it.pending = some 0 →
        Event.logOut "Received empty datagram." ∈ udpServerIterEvents fd it
        ∧ List.countP isSendto (udpServerIterEvents fd it) = 0)
    ∧ (∀ it n, it.pending = some n → 0 < n → it.sendOk = false →
        Event.logErr "Error: Sendto failed. " ∈ udpServerIterEvents fd it) := by
  refine ⟨?_, ?_, ?_, ?_, ?_, ?_⟩
  · obtain ⟨sf, so, b⟩ := env
    cases sf <;> cases so <;> cases b <;> simp [udpServerRun, udpServerInit]
  · intro h
    rw [udpServerRun_of_looping env iters fd h]
  · intro more
    cases hph : (udpServerInit env).2 with
    | exited c => simp [udpServerRun, hph]
    | looping f => simp [udpServerRun, hph]
  · intro it hp
    rw [udpServerIterEvents_eq_of_neg fd it hp]
    simp [isSendto]
  · intro it hp
    rw [udpServerIterEvents_eq_of_zero fd it hp]
    simp [isSendto]
  · intro it n hp hn hsok
    rw [udpServerIterEvents_eq_of_pos fd it n hp hn]
    simp [hsok]

/-- Witness for C4 at a concrete environment. -/
theorem C4_udp_loop_never_terminates_witness :
    (udpServerRun ⟨some 3, true, true⟩ [⟨none, ⟨1, 2⟩, true⟩]).2 = UdpPhase.looping 3 :=
  (C4_udp_loop_never_terminates ⟨some 3, true, true⟩ [⟨none, ⟨1, 2⟩, true⟩] 3).2.1 rfl

/-- C1: in every iteration of the udp_server.cpp loop whose receive
returns a positive length, the events of that iteration occur inside the
run trace, contain exactly one sendto, and every sendto of that
iteration is addressed to the sender Endpoint captured by that very
receive — never to a cached or default Endpoint; this holds for every
iteration index independently. -/
theorem C1_udp_reply_to_captured_sender (env : UdpServerEnv) (iters : List UdpIter) (fd : Nat)
    (hfd : (udpServerInit env).2 = UdpPhase.looping fd)
    (i : Nat) (h : i < iters.length) (n : Nat)
    (hp : (iters.get ⟨i, h⟩).pending = some n) (hn : 0 < n) :
    List.IsInfix (udpServerIterEvents fd (iters.get ⟨i, h⟩)) (udpServerRun env iters).1
    ∧ List.countP isSendto (udpServerIterEvents fd (iters.get ⟨i, h⟩)) = 1
    ∧ (∀ f ep len res,
        Event.sendtoDone f ep len res ∈ udpServerIterEvents fd (iters.get ⟨i, h⟩) →
          ep = (iters.get ⟨i, h⟩).sender ∧ f = fd) := by
  obtain ⟨pre, post, heq⟩ := udpServerLoopEvents_decompose fd iters i h
  refine ⟨?_, udpServerIterEvents_countP_sendto_pos fd _ n hp hn, ?_⟩
  · refine ⟨(udpServerInit env).1 ++ pre, post, ?_⟩
    rw [udpServerRun_of_looping env iters fd hfd]
    simp [heq]
  · intro f ep len res hmem
    have := udpServerIterEvents_sendto_mem fd _ f ep len res hmem
    exact ⟨this.2.1, this.1⟩

/-- Witness for C1 at a concrete environment with one positive-length
iteration. -/
theorem C1_udp_reply_to_captured_sender_witness :
    List.IsInfix (udpServerIterEvents 3 ⟨some 5, ⟨9, 9⟩, true⟩)
      (udpServerRun ⟨some 3, true, true⟩ [⟨some 5, ⟨9, 9⟩, true⟩]).1
    ∧ List.countP isSendto (udpServerIterEvents 3 ⟨some 5, ⟨9, 9⟩, true⟩) = 1
    ∧ (∀ f ep len res,
        Event.sendtoDone f ep len res ∈ udpServerIterEvents 3 ⟨some 5, ⟨9, 9⟩, true⟩ →
          ep = (⟨9, 9⟩ : Endpoint) ∧ f = 3) :=
  C1_udp_reply_to_captured_sender ⟨some 3, true, true⟩ [⟨some 5, ⟨9, 9⟩, true⟩] 3 rfl
    0 (by decide) 5 rfl (by decide)

theorem tcpServerExchange_recvDone_mem (cfd : Nat) (r : Int) (ok : Bool) (f m : Nat) (q : Int)
    (h : Event.recvDone f m q ∈ tcpServerExchange cfd r ok) :
    f = cfd ∧ m = BUFFER_SIZE - 1 ∧ q = r := by
  unfold tcpServerExchange at h
  rcases List.mem_cons.mp h with heq | h
  · injection heq with a b c
    exact ⟨a, b, c⟩
  · exfalso
    by_cases h1 : r = -1 <;> by_cases h2 : r = 0 <;> cases ok <;>
      simp [h1, h2, osSend_false, osSend_true_ne_neg_one] at h

theorem tcpServerExchange_sendDone_mem (cfd : Nat) (r : Int) (ok : Bool) (f len : Nat)
    (res : Int) (h : Event.sendDone f len res ∈ tcpServerExchange cfd r ok) :
    f = cfd ∧ len = tcpServerResponse.length := by
  unfold tcpServerExchange at h
  rcases List.mem_cons.mp h with heq | h
  · simp at heq
  · by_cases h1 : r = -1
    · simp [h1] at h
    · by_cases h2 : r = 0
      · simp [h1, h2] at h
      · cases ok with
        | false =>
          simp [h1, h2, osSend_false] at h
          tauto
        | true =>
          simp [h1, h2, osSend_true_ne_neg_one] at h
          tauto

theorem tcpServerRun_recvDone_mem (env : TcpServerEnv) (f m : Nat) (q : Int)
    (h : Event.recvDone f m q ∈ (tcpServerRun env).1) :
    m = BUFFER_SIZE - 1 ∧ q ≤ ((BUFFER_SIZE - 1 : Nat) : Int) := by
  obtain ⟨sf, so, b, l, af, peer, p, sok⟩ := env
  cases sf with
  | none => simp [tcpServerRun] at h
  | some sfd =>
    cases so <;> cases b <;> cases l <;> cases af <;>
      simp [tcpServerRun] at h <;>
      (obtain ⟨-, hm, hq⟩ := tcpServerExchange_recvDone_mem _ _ _ _ _ _ h;
       subst hq;
       exact ⟨hm, osRecv_le p (BUFFER_SIZE - 1)⟩)

theorem tcpServerRun_sendDone_mem (env : TcpServerEnv) (f len : Nat) (res : Int)
    (h : Event.sendDone f len res ∈ (tcpServerRun env).1) :
    len = tcpServerResponse.length := by
  obtain ⟨sf, so, b, l, af, peer, p, sok⟩ := env
  cases sf with
  | none => simp [tcpServerRun] at h
  | some sfd =>
    cases so <;> cases b <;> cases l <;> cases af <;>
      simp [tcpServerRun] at h <;>
      exact (tcpServerExchange_sendDone_mem _ _ _ _ _ _ h).2

theorem tcpClientRun_recvDone_mem (env : TcpClientEnv) (f m : Nat) (q : Int)
    (h : Event.recvDone f m q ∈ (tcpClientRun env).1) :
    m = BUFFER_SIZE - 1 ∧ q = osRecv env.pending (BUFFER_SIZE - 1) := by
  obtain ⟨sf, po, co, sok, p⟩ := env
  cases sf with
  | none => simp [tcpClientRun] at h
  | some fd =>
    cases po with
    | false => simp [tcpClientRun] at h
    | true =>
      cases co with
      | false => simp [tcpClientRun] at h
      | true =>
        cases sok with
        | false => simp [tcpClientRun, osSend_false] at h
        | true =>
          cases p with
          | none =>
            simp [tcpClientRun, osSend_true_ne_neg_one, osRecv_none] at h
            simp [osRecv_none, h]
          | some n =>
            by_cases hn : n = 0
            · subst hn
              simp [tcpClientRun, osSend_true_ne_neg_one, osRecv_zero] at h
              simp [osRecv_zero, h]
            · have hr : 0 < osRecv (some n) (BUFFER_SIZE - 1) :=
                osRecv_pos_of_pos n _ (by omega) (by simp [BUFFER_SIZE])
              have h1 : ¬osRecv (some n) (BUFFER_SIZE - 1) = -1 := by omega
              have h2 : ¬osRecv (some n) (BUFFER_SIZE - 1) = 0 := by omega
              simp [tcpClientRun, osSend_true_ne_neg_one, h1, h2] at h
              simp [h]

theorem tcpClientRun_sendDone_mem (env : TcpClientEnv) (f len : Nat) (res : Int)
    (h : Event.sendDone f len res ∈ (tcpClientRun env).1) :
    len = tcpClientMessage.length := by
  obtain ⟨sf, po, co, sok, p⟩ := env
  cases sf with
  | none => simp [tcpClientRun] at h
  | some fd =>
    cases po with
    | false => simp [tcpClientRun] at h
    | true =>
      cases co with
      | false => simp [tcpClientRun] at h
      | true =>
        cases sok with
        | false =>
          simp [tcpClientRun, osSend_false] at h
          tauto
        | true =>
          cases p with
          | none =>
            simp [tcpClientRun, osSend_true_ne_neg_one, osRecv_none] at h
            tauto
          | some n =>
            by_cases hn : n = 0
            · subst hn
              simp [tcpClientRun, osSend_true_ne_neg_one, osRecv_zero] at h
              tauto
            · have hr : 0 < osRecv (some n) (BUFFER_SIZE - 1) :=
                osRecv_pos_of_pos n _ (by omega) (by simp [BUFFER_SIZE])
              have h1 : ¬osRecv (some n) (BUFFER_SIZE - 1) = -1 := by omega
              have h2 : ¬osRecv (some n) (BUFFER_SIZE - 1) = 0 := by omega
              simp [tcpClientRun, osSend_true_ne_neg_one, h1, h2] at h
              tauto

theorem udpServerIterEvents_recvfrom_mem (fd : Nat) (it : UdpIter) (f m : Nat) (q : Int)
    (s : Endpoint) (h : Event.recvfromDone f m q s ∈ udpServerIterEvents fd it) :
    m = BUFFER_SIZE - 1 ∧ q = osRecv it.pending (BUFFER_SIZE - 1) := by
  unfold udpServerIterEvents at h
  rcases List.mem_cons.mp h with heq | h
  · injection heq with a b c d
    exact ⟨b, c⟩
  · exfalso
    by_cases h1 : osRecv it.pending (BUFFER_SIZE - 1) = -1 <;>
      by_cases h2 : osRecv it.pending (BUFFER_SIZE - 1) = 0 <;>
      cases hok : it.sendOk <;>
      simp [h1, h2, hok, osSend_false, osSend_true_ne_neg_one] at h

theorem udpServerIterEvents_no_recvDone (fd : Nat) (it : UdpIter) (f m : Nat) (q : Int) :
    Event.recvDone f m q ∉ udpServerIterEvents fd it := by
  intro h
  unfold udpServerIterEvents at h
  rcases List.mem_cons.mp h with heq | h
  · simp at heq
  · by_cases h1 : osRecv it.pending (BUFFER_SIZE - 1) = -1 <;>
      by_cases h2 : osRecv it.pending (BUFFER_SIZE - 1) = 0 <;>
      cases hok : it.sendOk <;>
      simp [h1, h2, hok, osSend_false, osSend_true_ne_neg_one] at h

theorem udpServerInit_no_recvfrom (env : UdpServerEnv) (f m : Nat) (q : Int) (s : Endpoint) :
    Event.recvfromDone f m q s ∉ (udpServerInit env).1 := by
  obtain ⟨sf, so, b⟩ := env
  cases sf <;> cases so <;> cases b <;> simp [udpServerInit]

theorem udpServerInit_no_sendto (env : UdpServerEnv) (f : Nat) (ep : Endpoint) (len : Nat)
    (res : Int) : Event.sendtoDone f ep len res ∉ (udpServerInit env).1 := by
  obtain ⟨sf, so, b⟩ := env
  cases sf <;> cases so <;> cases b <;> simp [udpServerInit]

theorem udpServerLoopEvents_recvfrom_mem (fd : Nat) (iters : List UdpIter) (f m : Nat)
    (q : Int) (s : Endpoint)
    (h : Event.recvfromDone f m q s ∈ udpServerLoopEvents fd iters) :
    m = BUFFER_SIZE - 1 ∧ q ≤ ((BUFFER_SIZE - 1 : Nat) : Int) := by
  induction iters with
  | nil => simp [udpServerLoopEvents] at h
  | cons it rest ih =>
    rw [udpServerLoopEvents, List.mem_append] at h
    rcases h with h | h
    · obtain ⟨hm, hq⟩ := udpServerIterEvents_recvfrom_mem fd it f m q s h
      subst hq
      exact ⟨hm, osRecv_le it.pending (BUFFER_SIZE - 1)⟩
    · exact ih h

theorem udpServerLoopEvents_sendto_mem (fd : Nat) (iters : List UdpIter) (f : Nat)
    (ep : Endpoint) (len : Nat) (res : Int)
    (h : Event.sendtoDone f ep len res ∈ udpServerLoopEvents fd iters) :
    f = fd ∧ len = udpServerResponse.length := by
  induction iters with
  | nil => simp [udpServerLoopEvents] at h
  | cons it rest ih =>
    rw [udpServerLoopEvents, List.mem_append] at h
    rcases h with h | h
    · obtain ⟨hf, hs, hl⟩ := udpServerIterEvents_sendto_mem fd it f ep len res h
      exact ⟨hf, hl⟩
    · exact ih h

theorem udpServerRun_recvfrom_mem (env : UdpServerEnv) (iters : List UdpIter) (f m : Nat)
    (q : Int) (s : Endpoint)
    (h : Event.recvfromDone f m q s ∈ (udpServerRun env iters).1) :
    m = BUFFER_SIZE - 1 ∧ q ≤ ((BUFFER_SIZE - 1 : Nat) : Int) := by
  cases hph : (udpServerInit env).2 with
  | exited c =>
    simp [udpServerRun, hph] at h
    exact absurd h (udpServerInit_no_recvfrom env f m q s)
  | looping fd =>
    simp [udpServerRun, hph, List.mem_append] at h
    rcases h with h | h
    · exact absurd h (udpServerInit_no_recvfrom env f m q s)
    · exact udpServerLoopEvents_recvfrom_mem fd iters f m q s h

theorem udpServerRun_sendto_mem (env : UdpServerEnv) (iters : List UdpIter) (f : Nat)
    (ep : Endpoint) (len : Nat) (res : Int)
    (h : Event.sendtoDone f ep len res ∈ (udpServerRun env iters).1) :
    len = udpServerResponse.length := by
  cases hph : (udpServerInit env).2 with
  | exited c =>
    simp [udpServerRun, hph] at h
    exact absurd h (udpServerInit_no_sendto env f ep len res)
  | looping fd =>
    simp [udpServerRun, hph, List.mem_append] at h
    rcases h with h | h
    · exact absurd h (udpServerInit_no_sendto env f ep len res)
    · exact (udpServerLoopEvents_sendto_mem fd iters f ep len res h).2

theorem udpClientRun_recvfrom_mem (env : UdpClientEnv) (f m : Nat) (q : Int) (s : Endpoint)
    (h : Event.recvfromDone f m q s ∈ (udpClientRun env).1) :
    m = BUFFER_SIZE - 1 ∧ q = osRecv env.pending (BUFFER_SIZE - 1) := by
  obtain ⟨sf, po, sok, p, rs⟩ := env
  cases sf with
  | none => simp [udpClientRun] at h
  | some fd =>
    cases po with
    | false => simp [udpClientRun] at h
    | true =>
      cases sok with
      | false => simp [udpClientRun, osSend_false] at h
      | true =>
        cases p with
        | none =>
          simp [udpClientRun, osSend_true_ne_neg_one, osRecv_none] at h
          simp [osRecv_none, h]
        | some n =>
          by_cases hn : n = 0
          · subst hn
            simp [udpClientRun, osSend_true_ne_neg_one, osRecv_zero] at h
            simp [osRecv_zero, h]
          · have hr : 0 < osRecv (some n) (BUFFER_SIZE - 1) :=
              osRecv_pos_of_pos n _ (by omega) (by simp [BUFFER_SIZE])
            have h1 : ¬osRecv (some n) (BUFFER_SIZE - 1) = -1 := by omega
            have h2 : ¬osRecv (some n) (BUFFER_SIZE - 1) = 0 := by omega
            simp [udpClientRun, osSend_true_ne_neg_one, h1, h2] at h
            simp [h]

theorem udpClientRun_sendto_mem (env : UdpClientEnv) (f : Nat) (ep : Endpoint) (len : Nat)
    (res : Int) (h : Event.sendtoDone f ep len res ∈ (udpClientRun env).1) :
    ep = clientTarget ∧ len = udpClientMessage.length := by
  obtain ⟨sf, po, sok, p, rs⟩ := env
  cases sf with
  | none => simp [udpClientRun] at h
  | some fd =>
    cases po with
    | false => simp [udpClientRun] at h
    | true =>
      cases sok with
      | false =>
        simp [udpClientRun, osSend_false] at h
        tauto
      | true =>
        cases p with
        | none =>
          simp [udpClientRun, osSend_true_ne_neg_one, osRecv_none] at h
          tauto
        | some n =>
          by_cases hn : n = 0
          · subst hn
            simp [udpClientRun, osSend_true_ne_neg_one, osRecv_zero] at h
            tauto
          · have hr : 0 < osRecv (some n) (BUFFER_SIZE - 1) :=
              osRecv_pos_of_pos n _ (by omega) (by simp [BUFFER_SIZE])
            have h1 : ¬osRecv (some n) (BUFFER_SIZE - 1) = -1 := by omega
            have h2 : ¬osRecv (some n) (BUFFER_SIZE - 1) = 0 := by omega
            simp [udpClientRun, osSend_true_ne_neg_one, h1, h2] at h
            tauto

/-- C6: every receiver requests at most BUFFER_SIZE - 1 bytes per
receive, so every receive result is at most BUFFER_SIZE - 1 bytes; a
pending message of BUFFER_SIZE or more bytes yields exactly
BUFFER_SIZE - 1 received bytes (truncation), a pending message of
exactly BUFFER_SIZE - 1 bytes is received in full; and the terminator
slot is never transmitted: the servers always send exactly the length
of their fixed response text, independent of the receive buffer. -/
theorem C6_truncation_at_buffer_boundary (envTS : TcpServerEnv) (envTC : TcpClientEnv)
    (envUS : UdpServerEnv) (iters : List UdpIter) (envUC : UdpClientEnv) :
    (∀ f m q, Event.recvDone f m q ∈ (tcpServerRun envTS).1 →
        m = BUFFER_SIZE - 1 ∧ q ≤ ((BUFFER_SIZE - 1 : Nat) : Int))
    ∧ (∀ f m q, Event.recvDone f m q ∈ (tcpClientRun envTC).1 →
        m = BUFFER_SIZE - 1 ∧ q ≤ ((BUFFER_SIZE - 1 : Nat) : Int))
    ∧ (∀ f m q s, Event.recvfromDone f m q s ∈ (udpServerRun envUS iters).1 →
        m = BUFFER_SIZE - 1 ∧ q ≤ ((BUFFER_SIZE - 1 : Nat) : Int))
    ∧ (∀ f m q s, Event.recvfromDone f m q s ∈ (udpClientRun envUC).1 →
        m = BUFFER_SIZE - 1 ∧ q ≤ ((BUFFER_SIZE - 1 : Nat) : Int))
    ∧ (∀ n, BUFFER_SIZE ≤ n →
        osRecv (some n) (BUFFER_SIZE - 1) = ((BUFFER_SIZE - 1 : Nat) : Int))
    ∧ osRecv (some (BUFFER_SIZE - 1)) (BUFFER_SIZE - 1) = ((BUFFER_SIZE - 1 : Nat) : Int)
    ∧ (∀ f len res, Event.sendDone f len res ∈ (tcpServerRun envTS).1 →
        len = tcpServerResponse.length)
    ∧ (∀ f ep len res, Event.sendtoDone f ep len res ∈ (udpServerRun envUS iters).1 →
        len = udpServerResponse.length) := by
  refine ⟨fun f m q h => tcpServerRun_recvDone_mem envTS f m q h, ?_, 
    fun f m q s h => udpServerRun_recvfrom_mem envUS iters f m q s h, ?_, ?_, ?_,
    fun f len res h => tcpServerRun_sendDone_mem envTS f len res h,
    fun f ep len res h => udpServerRun_sendto_mem envUS iters f ep len res h⟩
  · intro f m q h
    obtain ⟨hm, hq⟩ := tcpClientRun_recvDone_mem envTC f m q h
    subst hq
    exact ⟨hm, osRecv_le envTC.pending (BUFFER_SIZE - 1)⟩
  · intro f m q s h
    obtain ⟨hm, hq⟩ := udpClientRun_recvfrom_mem envUC f m q s h
    subst hq
    exact ⟨hm, osRecv_le envUC.pending (BUFFER_SIZE - 1)⟩
  · intro n hn
    have hb : BUFFER_SIZE - 1 ≤ n := by omega
    simp only [osRecv]
    rw [Nat.min_eq_right hb]
  · simp [osRecv]

/-- Witness for C6 at a concrete oversize message length. -/
theorem C6_truncation_at_buffer_boundary_witness :
    osRecv (some 2000) (BUFFER_SIZE - 1) = ((BUFFER_SIZE - 1 : Nat) : Int) :=
  (C6_truncation_at_buffer_boundary ⟨some 3, true, true, true, some 4, ⟨1, 2⟩, some 7, true⟩
    ⟨some 3, true, true, true, some 7⟩ ⟨some 3, true, true⟩ [] 
    ⟨some 3, true, true, some 7, ⟨1, 2⟩⟩).2.2.2.2.1 2000 (by decide)
